import Mathlib

/-!
Shallow embedding of the GLOVE GPU resource translation core:
the Vulkan `RenderPass` wrapper (renderPass.cpp) and the GLES `Shader`
object (shader.cpp).  Native Vulkan entry points (`vkCreateRenderPass`,
`vkCmdBeginRenderPass`, `vkCreateShaderModule`, ...) are modelled as
oracles: their result code and the handle they write are parameters of
the embedded operation, and the commands recorded into a command buffer
are returned explicitly as a list.
-/

/-- VkResult is a C enum of integers; `VK_SUCCESS = 0` and error codes are
negative.  We model it as `Int` so that "every possible result code" is a
genuine universal quantification. -/
def VK_SUCCESS : Int := 0

/-- Vulkan error code -1. -/
def VK_ERROR_OUT_OF_HOST_MEMORY : Int := -1

/-- Vulkan error code -2. -/
def VK_ERROR_OUT_OF_DEVICE_MEMORY : Int := -2

/-- VkFormat modelled as a natural number; `VK_FORMAT_UNDEFINED = 0` and a
format is "defined" exactly when it is nonzero. -/
def VK_FORMAT_UNDEFINED : Nat := 0

inductive VkAttachmentLoadOp where
  | clear
  | dontCare
  deriving DecidableEq

inductive VkAttachmentStoreOp where
  | store
  | dontCare
  deriving DecidableEq

inductive VkImageLayout where
  | undefined
  | colorAttachmentOptimal
  | depthStencilAttachmentOptimal
  deriving DecidableEq

inductive VkSubpassContents where
  | inlineContents
  | secondaryCommandBuffers
  deriving DecidableEq

inductive VkPipelineBindPoint where
  | graphics
  | compute
  deriving DecidableEq

/-- `VkAttachmentDescription`, field for field as initialized in
`RenderPass::Create` (renderPass.cpp lines 78-107). -/
structure VkAttachmentDescription where
  flags : Nat
  format : Nat
  samples : Nat
  loadOp : VkAttachmentLoadOp
  storeOp : VkAttachmentStoreOp
  stencilLoadOp : VkAttachmentLoadOp
  stencilStoreOp : VkAttachmentStoreOp
  initialLayout : VkImageLayout
  finalLayout : VkImageLayout
  deriving DecidableEq

structure VkAttachmentReference where
  attachment : Nat
  layout : VkImageLayout
  deriving DecidableEq

/-- `VkSubpassDescription` as initialized in renderPass.cpp lines 115-125.
The nullable pointers `pColorAttachments` / `pDepthStencilAttachment` are
modelled as `Option VkAttachmentReference`. -/
structure VkSubpassDescription where
  pipelineBindPoint : VkPipelineBindPoint
  flags : Nat
  colorAttachmentCount : Nat
  pColorAttachments : Option VkAttachmentReference
  pDepthStencilAttachment : Option VkAttachmentReference
  inputAttachmentCount : Nat
  preserveAttachmentCount : Nat
  deriving DecidableEq

/-- `VkRenderPassCreateInfo` as initialized in renderPass.cpp lines 127-136:
`attachmentCount`/`pAttachments` become the list `attachments`,
`subpassCount = 1` / `pSubpasses = &subpass` become the list `subpasses`. -/
structure VkRenderPassCreateInfo where
  flags : Nat
  attachments : List VkAttachmentDescription
  subpasses : List VkSubpassDescription
  dependencyCount : Nat
  deriving DecidableEq

/-- Mutable state of a `vulkanAPI::RenderPass` object.  The non-owned
device context pointer is irrelevant to the modelled behaviour and is
omitted; `mVkRenderPass` (a nullable native handle) is `Option Nat`. -/
structure RenderPassState where
  vkRenderPass : Option Nat
  vkSubpassContents : VkSubpassContents
  vkPipelineBindPoint : VkPipelineBindPoint
  colorClearEnabled : Bool
  depthClearEnabled : Bool
  stencilClearEnabled : Bool
  colorWriteEnabled : Bool
  depthWriteEnabled : Bool
  stencilWriteEnabled : Bool
  started : Bool
  deriving DecidableEq

/-- The constructor `RenderPass::RenderPass` (renderPass.cpp lines 35-44). -/
def RenderPass.initial : RenderPassState where
  vkRenderPass := none
  vkSubpassContents := VkSubpassContents.secondaryCommandBuffers
  vkPipelineBindPoint := VkPipelineBindPoint.graphics
  colorClearEnabled := false
  depthClearEnabled := false
  stencilClearEnabled := false
  colorWriteEnabled := true
  depthWriteEnabled := true
  stencilWriteEnabled := false
  started := false

/-- `RenderPass::Release` (renderPass.cpp lines 53-62): destroys the native
handle if present and resets it to null.  `mStarted` is not touched. -/
def RenderPass.Release (s : RenderPassState) : RenderPassState :=
  if s.vkRenderPass ≠ none then { s with vkRenderPass := none } else s

/-- The `VkRenderPassCreateInfo` that `RenderPass::Create` builds and hands
to `vkCreateRenderPass` (renderPass.cpp lines 71-136), including the
attachment descriptors, the attachment references (whose `attachment`
index is `attachments.size() - 1` at push time) and the single subpass. -/
def RenderPass.CreateInfo (s : RenderPassState)
    (colorFormat depthstencilFormat : Nat) : VkRenderPassCreateInfo :=
  let start : List VkAttachmentDescription := []
  let colorStage :=
    if colorFormat ≠ VK_FORMAT_UNDEFINED then
      let attachmentColor : VkAttachmentDescription :=
        { flags := 0
          format := colorFormat
          samples := 1
          loadOp := if s.colorClearEnabled then VkAttachmentLoadOp.clear
                    else VkAttachmentLoadOp.dontCare
          storeOp := if s.colorWriteEnabled then VkAttachmentStoreOp.store
                     else VkAttachmentStoreOp.dontCare
          stencilLoadOp := VkAttachmentLoadOp.dontCare
          stencilStoreOp := VkAttachmentStoreOp.dontCare
          initialLayout := VkImageLayout.undefined
          finalLayout := VkImageLayout.colorAttachmentOptimal }
      let atts := start ++ [attachmentColor]
      (atts, some { attachment := atts.length - 1
                    layout := VkImageLayout.colorAttachmentOptimal
                    : VkAttachmentReference })
    else (start, none)
  let dsStage :=
    if depthstencilFormat ≠ VK_FORMAT_UNDEFINED then
      let attachmentDepthStencil : VkAttachmentDescription :=
        { flags := 0
          format := depthstencilFormat
          samples := 1
          loadOp := if s.depthClearEnabled then VkAttachmentLoadOp.clear
                    else VkAttachmentLoadOp.dontCare
          storeOp := if s.depthWriteEnabled then VkAttachmentStoreOp.store
                     else VkAttachmentStoreOp.dontCare
          stencilLoadOp := if s.stencilClearEnabled then VkAttachmentLoadOp.clear
                           else VkAttachmentLoadOp.dontCare
          stencilStoreOp := if s.stencilWriteEnabled then VkAttachmentStoreOp.store
                            else VkAttachmentStoreOp.dontCare
          initialLayout := VkImageLayout.undefined
          finalLayout := VkImageLayout.depthStencilAttachmentOptimal }
      let atts := colorStage.1 ++ [attachmentDepthStencil]
      (atts, some { attachment := atts.length - 1
                    layout := VkImageLayout.depthStencilAttachmentOptimal
                    : VkAttachmentReference })
    else (colorStage.1, none)
  let subpass : VkSubpassDescription :=
    { pipelineBindPoint := s.vkPipelineBindPoint
      flags := 0
      colorAttachmentCount := if colorFormat ≠ VK_FORMAT_UNDEFINED then 1 else 0
      pColorAttachments := if colorFormat ≠ VK_FORMAT_UNDEFINED then colorStage.2 else none
      pDepthStencilAttachment :=
        if depthstencilFormat ≠ VK_FORMAT_UNDEFINED then dsStage.2 else none
      inputAttachmentCount := 0
      preserveAttachmentCount := 0 }
  { flags := 0
    attachments := dsStage.1
    subpasses := [subpass]
    dependencyCount := 0 }

/-- Result of `RenderPass::Create`: the state after the call, the returned
boolean, and the create info that was submitted to `vkCreateRenderPass`. -/
structure CreateResult where
  state : RenderPassState
  result : Bool
  submitted : VkRenderPassCreateInfo
  deriving DecidableEq

/-- `RenderPass::Create` (renderPass.cpp lines 64-142).  The native call
`vkCreateRenderPass` is an oracle: `err` is the `VkResult` it reports and
`written` is the handle it stores through `&mVkRenderPass`.  The code
first calls `Release()`, builds the create info, performs the native call
(`assert(!err)` is a no-op in release builds) and returns
`err != VK_ERROR_OUT_OF_HOST_MEMORY && err != VK_ERROR_OUT_OF_DEVICE_MEMORY`.
`mStarted` is never touched. -/
def RenderPass.Create (s : RenderPassState) (colorFormat depthstencilFormat : Nat)
    (err : Int) (written : Option Nat) : CreateResult :=
  let s1 := RenderPass.Release s
  let info := RenderPass.CreateInfo s1 colorFormat depthstencilFormat
  { state := { s1 with vkRenderPass := written }
    result := (err != VK_ERROR_OUT_OF_HOST_MEMORY) &&
              (err != VK_ERROR_OUT_OF_DEVICE_MEMORY)
    submitted := info }

/-- A command recorded into the active command buffer.  The begin command
carries the render pass handle and subpass contents mode used by
`vkCmdBeginRenderPass`; the clear values (floating point color/depth data
copied into `VkClearValue[2]`) are pass-through payload for the native
layer and are not modelled. -/
inductive VkCmd where
  | cmdBeginRenderPass (renderPass : Option Nat) (contents : VkSubpassContents)
  | cmdEndRenderPass
  deriving DecidableEq

/-- `RenderPass::Begin` (renderPass.cpp lines 145-173): builds the begin
info, unconditionally issues `vkCmdBeginRenderPass` and sets
`mStarted = true`.  There is no check of `mVkRenderPass`.  Returns the new
state and the commands recorded into the command buffer. -/
def RenderPass.Begin (s : RenderPassState) : RenderPassState × List VkCmd :=
  ({ s with started := true },
   [VkCmd.cmdBeginRenderPass s.vkRenderPass s.vkSubpassContents])

/-- `RenderPass::End` (renderPass.cpp lines 175-184): if `mStarted` is set,
clear it and issue `vkCmdEndRenderPass`; otherwise do nothing. -/
def RenderPass.End (s : RenderPassState) : RenderPassState × List VkCmd :=
  if s.started then
    ({ s with started := false }, [VkCmd.cmdEndRenderPass])
  else (s, [])

/-- One API-level operation on a RenderPass, with the native oracle data a
`Create` step needs. -/
inductive RPOp where
  | createOp (colorFormat depthstencilFormat : Nat) (err : Int) (written : Option Nat)
  | beginOp
  | endOp
  | releaseOp
  deriving DecidableEq

/-- State transition of one RenderPass operation. -/
def RenderPass.step (s : RenderPassState) : RPOp → RenderPassState
  | RPOp.createOp cf dsf err written => (RenderPass.Create s cf dsf err written).state
  | RPOp.beginOp => (RenderPass.Begin s).1
  | RPOp.endOp => (RenderPass.End s).1
  | RPOp.releaseOp => RenderPass.Release s

/-- Run a sequence of RenderPass operations from a state. -/
def RenderPass.run (s : RenderPassState) : List RPOp → RenderPassState
  | [] => s
  | op :: ops => RenderPass.run (RenderPass.step s op) ops

/-- GLES shader stage tag (`SHADER_TYPE_INVALID` / `VERTEX` / `FRAGMENT`). -/
inductive ShaderType where
  | invalid
  | vertex
  | fragment
  deriving DecidableEq

/-- Mutable state of a `Shader` object (shader.cpp).  Bytes are `Nat`;
`mSource` is the owned buffer including its null terminator (or null);
`mSpv` is the binary IR word sequence; `mVkShaderModule` is the nullable
native module handle.  The device context and compiler references carry no
modelled state. -/
structure ShaderState where
  vkShaderModule : Option Nat
  source : Option (List Nat)
  sourceLength : Nat
  shaderType : ShaderType
  compiled : Bool
  spv : List Nat
  deriving DecidableEq

/-- The constructor `Shader::Shader` (shader.cpp lines 32-37): null module,
no source, zero length, `SHADER_TYPE_INVALID`, not compiled, empty IR. -/
def Shader.initial : ShaderState where
  vkShaderModule := none
  source := none
  sourceLength := 0
  shaderType := ShaderType.invalid
  compiled := false
  spv := []

/-- `Shader::FreeSources` (shader.cpp lines 55-65). -/
def Shader.FreeSources (s : ShaderState) : ShaderState :=
  if s.source ≠ none then { s with source := none, sourceLength := 0 } else s

/-- C `strlen` on a byte buffer: number of bytes before the first 0. -/
def strlen (buf : List Nat) : Nat := (buf.takeWhile (fun b => b != 0)).length

/-- The length the loop at shader.cpp lines 83-98 computes for fragment `i`:
`strlen(source[i])` when `length` is null or `length[i] < 0`, else
`length[i]`. -/
def fragLenAt (srcs : List (List Nat)) (lens : Option (List Int)) (i : Nat) : Nat :=
  match lens with
  | none => strlen (srcs.getD i [])
  | some L => if L.getD i 0 < 0 then strlen (srcs.getD i []) else (L.getD i 0).toNat

/-- The `sourceLengths` array filled by the first loop of
`Shader::SetShaderSource` (shader.cpp lines 83-98). -/
def sourceLengthsOf (count : Nat) (srcs : List (List Nat)) (lens : Option (List Int)) :
    List Nat :=
  (List.range count).map (fragLenAt srcs lens)

/-- The concatenation performed by the second loop of
`Shader::SetShaderSource` (shader.cpp lines 110-116): the first
`sourceLengths[i]` bytes of each fragment, in input order. -/
def concatPieces (count : Nat) (srcs : List (List Nat)) (lens : Option (List Int)) :
    List Nat :=
  ((List.range count).map (fun i => (srcs.getD i []).take (fragLenAt srcs lens i))).flatten

/-- `Shader::SetShaderSource` (shader.cpp lines 67-128).  `source` is the
nullable array of `count` fragment buffers, `lens` the nullable length
array.  Frees the old source, clears `mCompiled`, returns early on a null
array or zero count or zero total length, otherwise concatenates the first
`sourceLengths[i]` bytes of each fragment and appends one null terminator.
The file-dump side channels at lines 121-127 touch no modelled state. -/
def Shader.SetShaderSource (s : ShaderState) (count : Nat)
    (source : Option (List (List Nat))) (lens : Option (List Int)) : ShaderState :=
  let s0 := { Shader.FreeSources s with compiled := false }
  match source with
  | none => s0
  | some srcs =>
    if count = 0 then s0 else
    if (sourceLengthsOf count srcs lens).sum = 0 then s0 else
    { s0 with source := some (concatPieces count srcs lens ++ [0])
              sourceLength := (sourceLengthsOf count srcs lens).sum }

/-- `Shader::GetShaderSourceLength` (shader.cpp lines 130-136). -/
def Shader.GetShaderSourceLength (s : ShaderState) : Nat :=
  if s.sourceLength > 0 then s.sourceLength + 1 else 0

/-- `Shader::GetShaderSource` (shader.cpp lines 138-151): null if no source,
else a fresh copy of `GetShaderSourceLength()` bytes of the stored buffer. -/
def Shader.GetShaderSource (s : ShaderState) : Option (List Nat) :=
  match s.source with
  | none => none
  | some buf => some (buf.take (Shader.GetShaderSourceLength s))

/-- `Shader::DestroyVkShader` (shader.cpp lines 185-194). -/
def Shader.DestroyVkShader (s : ShaderState) : ShaderState :=
  if s.vkShaderModule ≠ none then { s with vkShaderModule := none } else s

/-- Result of `Shader::CreateVkShaderModule`: `none` when the
`assert(mShaderType == VERTEX || mShaderType == FRAGMENT)` guard fires;
otherwise the state after the call, the returned handle, and whether
`vkCreateShaderModule` was invoked. -/
inductive ModuleResult where
  | assertViolation
  | ok (state : ShaderState) (returned : Option Nat) (nativeCalled : Bool)
  deriving DecidableEq

/-- `Shader::CreateVkShaderModule` (shader.cpp lines 196-221).  The native
call is an oracle: `err` its `VkResult`, `written` the handle it stores in
`mVkShaderModule`.  Asserts the stage, destroys any existing module,
returns `VK_NULL_HANDLE` without a native call when `mSpv` is empty,
otherwise creates the module and returns null on native failure, else the
new handle. -/
def Shader.CreateVkShaderModule (s : ShaderState) (err : Int) (written : Option Nat) :
    ModuleResult :=
  if s.shaderType = ShaderType.vertex ∨ s.shaderType = ShaderType.fragment then
    let s1 := Shader.DestroyVkShader s
    if s1.spv.length = 0 then ModuleResult.ok s1 none false
    else
      let s2 := { s1 with vkShaderModule := written }
      if err != 0 then ModuleResult.ok s2 none true
      else ModuleResult.ok s2 s2.vkShaderModule true
  else ModuleResult.assertViolation

/-- The effective byte content of each fragment under a length
specification: the text up to the null terminator when lengths are absent
or negative, else the first `length[i]` bytes. -/
def effFrags (srcs : List (List Nat)) (lens : Option (List Int)) : List (List Nat) :=
  match lens with
  | none => srcs.map (fun f => f.takeWhile (fun b => b != 0))
  | some L => (srcs.zip L).map
      (fun p => if p.2 < 0 then p.1.takeWhile (fun b => b != 0) else p.1.take p.2.toNat)

/-- C4: for every native result code, `RenderPass::Create` returns false
exactly when the code is `VK_ERROR_OUT_OF_HOST_MEMORY` or
`VK_ERROR_OUT_OF_DEVICE_MEMORY`; every other code (success included)
yields true. -/
theorem createFalseIffOutOfMemory (s : RenderPassState) (cf dsf : Nat)
    (err : Int) (written : Option Nat) :
    (RenderPass.Create s cf dsf err written).result = false ↔
      err = VK_ERROR_OUT_OF_HOST_MEMORY ∨ err = VK_ERROR_OUT_OF_DEVICE_MEMORY := by
  simp only [RenderPass.Create, Bool.and_eq_false_iff, bne_eq_false_iff_eq]

/-- C9: `RenderPass::End` is a pure no-op (state unchanged, no command
issued) when `started` is false; when `started` is true it records exactly
the scope-exit command and clears `started`. -/
theorem endIsNoOpUnlessStarted (s : RenderPassState) :
    (s.started = false → RenderPass.End s = (s, [])) ∧
    (s.started = true → RenderPass.End s =
      ({ s with started := false }, [VkCmd.cmdEndRenderPass])) := by
  constructor <;> intro h <;> simp [RenderPass.End, h]

/-- Witness for C9 at two concrete states. -/
theorem endIsNoOpUnlessStartedWitness :
    RenderPass.End RenderPass.initial = (RenderPass.initial, []) ∧
    RenderPass.End { RenderPass.initial with started := true } =
      ({ RenderPass.initial with started := false }, [VkCmd.cmdEndRenderPass]) := by
  constructor
  · exact (endIsNoOpUnlessStarted RenderPass.initial).1 rfl
  · exact ((endIsNoOpUnlessStarted { RenderPass.initial with started := true }).2 rfl).trans
      (by decide)

/-- C5: with both formats defined, the two attachment descriptors submitted
by `Create` map each channel's clear flag to CLEAR/DONT_CARE load and its
write flag to STORE/DONT_CARE store, the depth/stencil attachment using the
stencil flags independently for its stencil ops (the color attachment's
stencil ops are hard-wired DONT_CARE). -/
theorem loadStoreOpsFollowClearWriteFlags (s : RenderPassState) (cf dsf : Nat)
    (hc : cf ≠ VK_FORMAT_UNDEFINED) (hd : dsf ≠ VK_FORMAT_UNDEFINED) :
    ((RenderPass.Create s cf dsf VK_SUCCESS (some 1)).submitted.attachments.map
      (fun a => (a.loadOp, a.storeOp, a.stencilLoadOp, a.stencilStoreOp))) =
    [((if s.colorClearEnabled then VkAttachmentLoadOp.clear else VkAttachmentLoadOp.dontCare),
      (if s.colorWriteEnabled then VkAttachmentStoreOp.store else VkAttachmentStoreOp.dontCare),
      VkAttachmentLoadOp.dontCare, VkAttachmentStoreOp.dontCare),
     ((if s.depthClearEnabled then VkAttachmentLoadOp.clear else VkAttachmentLoadOp.dontCare),
      (if s.depthWriteEnabled then VkAttachmentStoreOp.store else VkAttachmentStoreOp.dontCare),
      (if s.stencilClearEnabled then VkAttachmentLoadOp.clear else VkAttachmentLoadOp.dontCare),
      (if s.stencilWriteEnabled then VkAttachmentStoreOp.store else VkAttachmentStoreOp.dontCare))] := by
  simp [RenderPass.Create, RenderPass.Release, RenderPass.CreateInfo, hc, hd]
  split <;> simp [hc, hd]

/-- A RenderPass state whose flags exercise both directions of every
load/store policy branch. -/
def policyWitnessState : RenderPassState :=
  { RenderPass.initial with
      colorClearEnabled := true
      colorWriteEnabled := false
      stencilClearEnabled := true }

/-- Witness for C5: the policy mapping evaluated at a concrete state and
concrete defined formats. -/
theorem loadStoreOpsFollowClearWriteFlagsWitness :
    ((RenderPass.Create policyWitnessState 37 126 VK_SUCCESS (some 1)).submitted.attachments.map
      (fun a => (a.loadOp, a.storeOp, a.stencilLoadOp, a.stencilStoreOp))) =
    [(VkAttachmentLoadOp.clear, VkAttachmentStoreOp.dontCare,
      VkAttachmentLoadOp.dontCare, VkAttachmentStoreOp.dontCare),
     (VkAttachmentLoadOp.dontCare, VkAttachmentStoreOp.store,
      VkAttachmentLoadOp.clear, VkAttachmentStoreOp.dontCare)] :=
  (loadStoreOpsFollowClearWriteFlags policyWitnessState 37 126
    (by decide) (by decide)).trans (by decide)

/-- C6: the attachment list submitted by `Create` has the color descriptor
first when the color format is defined, then the depth/stencil descriptor
when that format is defined; the attachment references point at index 0
for color and at the next index for depth/stencil, and exactly one subpass
is submitted carrying those references. -/
theorem attachmentAndSubpassLayout (s : RenderPassState) (cf dsf : Nat) :
    (RenderPass.Create s cf dsf VK_SUCCESS (some 1)).submitted.attachments.length =
      ((if cf ≠ VK_FORMAT_UNDEFINED then 1 else 0) +
       (if dsf ≠ VK_FORMAT_UNDEFINED then 1 else 0)) ∧
    (RenderPass.Create s cf dsf VK_SUCCESS (some 1)).submitted.attachments.map
        (fun a => a.finalLayout) =
      ((if cf ≠ VK_FORMAT_UNDEFINED then [VkImageLayout.colorAttachmentOptimal] else []) ++
       (if dsf ≠ VK_FORMAT_UNDEFINED then [VkImageLayout.depthStencilAttachmentOptimal] else [])) ∧
    (RenderPass.Create s cf dsf VK_SUCCESS (some 1)).submitted.subpasses.length = 1 ∧
    (RenderPass.Create s cf dsf VK_SUCCESS (some 1)).submitted.subpasses.map
        (fun sp => (sp.pColorAttachments, sp.pDepthStencilAttachment)) =
      [((if cf ≠ VK_FORMAT_UNDEFINED then
           some { attachment := 0, layout := VkImageLayout.colorAttachmentOptimal
                  : VkAttachmentReference }
         else none),
        (if dsf ≠ VK_FORMAT_UNDEFINED then
           some { attachment := (if cf ≠ VK_FORMAT_UNDEFINED then 1 else 0),
                  layout := VkImageLayout.depthStencilAttachmentOptimal
                  : VkAttachmentReference }
         else none))] := by
  by_cases hc : cf = VK_FORMAT_UNDEFINED <;> by_cases hd : dsf = VK_FORMAT_UNDEFINED <;>
    simp [RenderPass.Create, RenderPass.Release, RenderPass.CreateInfo, hc, hd]

/-- C10: a freshly constructed RenderPass has all clear flags false, color
and depth write enabled, stencil write disabled, secondary subpass
contents, a null handle and `started` false; consequently a `Create` call
issued before any flag mutation (with both formats defined) submits
DONT_CARE/STORE for the color and depth channels and DONT_CARE/DONT_CARE
for the stencil channel. -/
theorem freshRenderPassDefaultsAndPolicy :
    (RenderPass.initial.colorClearEnabled = false ∧
     RenderPass.initial.depthClearEnabled = false ∧
     RenderPass.initial.stencilClearEnabled = false ∧
     RenderPass.initial.colorWriteEnabled = true ∧
     RenderPass.initial.depthWriteEnabled = true ∧
     RenderPass.initial.stencilWriteEnabled = false ∧
     RenderPass.initial.vkSubpassContents = VkSubpassContents.secondaryCommandBuffers ∧
     RenderPass.initial.vkRenderPass = none ∧
     RenderPass.initial.started = false) ∧
    ∀ cf dsf : Nat, ∀ err : Int, ∀ written : Option Nat,
      cf ≠ VK_FORMAT_UNDEFINED → dsf ≠ VK_FORMAT_UNDEFINED →
      ((RenderPass.Create RenderPass.initial cf dsf err written).submitted.attachments.map
        (fun a => (a.loadOp, a.storeOp, a.stencilLoadOp, a.stencilStoreOp))) =
      [(VkAttachmentLoadOp.dontCare, VkAttachmentStoreOp.store,
        VkAttachmentLoadOp.dontCare, VkAttachmentStoreOp.dontCare),
       (VkAttachmentLoadOp.dontCare, VkAttachmentStoreOp.store,
        VkAttachmentLoadOp.dontCare, VkAttachmentStoreOp.dontCare)] := by
  refine ⟨by decide, ?_⟩
  intro cf dsf err written hc hd
  simp [RenderPass.Create, RenderPass.Release, RenderPass.CreateInfo, RenderPass.initial, hc, hd]

/-- Witness for C10 at concrete defined formats. -/
theorem freshRenderPassDefaultsAndPolicyWitness :
    ((RenderPass.Create RenderPass.initial 37 126 0 (some 1)).submitted.attachments.map
      (fun a => (a.loadOp, a.storeOp, a.stencilLoadOp, a.stencilStoreOp))) =
    [(VkAttachmentLoadOp.dontCare, VkAttachmentStoreOp.store,
      VkAttachmentLoadOp.dontCare, VkAttachmentStoreOp.dontCare),
     (VkAttachmentLoadOp.dontCare, VkAttachmentStoreOp.store,
      VkAttachmentLoadOp.dontCare, VkAttachmentStoreOp.dontCare)] :=
  freshRenderPassDefaultsAndPolicy.2 37 126 0 (some 1) (by decide) (by decide)

/-- The invariant claimed for a RenderPass: `started` is true only while
the native handle is non-null. -/
def rpInv (s : RenderPassState) : Prop :=
  s.started = true → s.vkRenderPass ≠ none

instance (s : RenderPassState) : Decidable (rpInv s) := by
  unfold rpInv; infer_instance

/-- Caller discipline under which the invariant is preserved: `Begin` only
with a non-null handle, no `Release` while recording, and any `Create`
issued while recording installs a non-null handle. -/
def allowedStep (s : RenderPassState) : RPOp → Bool
  | RPOp.createOp _ _ _ written => !s.started || written.isSome
  | RPOp.beginOp => s.vkRenderPass.isSome
  | RPOp.endOp => true
  | RPOp.releaseOp => !s.started

/-- A run is allowed when every step satisfies `allowedStep` in the state
it is taken from. -/
def allowedRun (s : RenderPassState) : List RPOp → Bool
  | [] => true
  | op :: ops => allowedStep s op && allowedRun (RenderPass.step s op) ops

theorem release_started (s : RenderPassState) :
    (RenderPass.Release s).started = s.started := by
  unfold RenderPass.Release; split <;> rfl

theorem rpInv_step (s : RenderPassState) (op : RPOp) (hinv : rpInv s)
    (hok : allowedStep s op = true) : rpInv (RenderPass.step s op) := by
  cases op with
  | createOp cf dsf err written =>
      intro hst
      simp only [allowedStep, Bool.or_eq_true, Bool.not_eq_eq_eq_not, Bool.not_true] at hok
      simp only [RenderPass.step, RenderPass.Create] at hst ⊢
      rw [release_started] at hst
      rcases hok with h | h
      · rw [h] at hst; exact absurd hst (by simp)
      · simpa [Option.isSome_iff_ne_none] using h
  | beginOp =>
      intro _
      simp only [allowedStep] at hok
      simpa [RenderPass.step, RenderPass.Begin, Option.isSome_iff_ne_none] using hok
  | endOp =>
      simp only [rpInv, RenderPass.step, RenderPass.End]
      split
      · intro hst; simp at hst
      · intro hst; exact hinv hst
  | releaseOp =>
      intro hst
      simp only [allowedStep, Bool.not_eq_eq_eq_not, Bool.not_true] at hok
      simp only [RenderPass.step] at hst
      rw [release_started] at hst
      rw [hok] at hst
      exact absurd hst (by simp)

theorem rpInv_run (s : RenderPassState) (hs : rpInv s) (ops : List RPOp)
    (h : allowedRun s ops = true) : rpInv (RenderPass.run s ops) := by
  induction ops generalizing s with
  | nil => exact hs
  | cons op ops ih =>
      simp only [allowedRun, Bool.and_eq_true] at h
      exact ih (RenderPass.step s op) (rpInv_step s op hs h.1) h.2

/-- C1 (amended): along every operation sequence from a fresh RenderPass in
which Begin is only invoked while the native handle is non-null, Release
is not invoked while recording, and any Create invoked while recording
installs a non-null handle, every reachable state satisfies the invariant
that `started` implies a non-null `nativeHandle`. -/
theorem startedImpliesHandleUnderDiscipline (ops : List RPOp)
    (h : allowedRun RenderPass.initial ops = true) :
    (RenderPass.run RenderPass.initial ops).started = true →
    (RenderPass.run RenderPass.initial ops).vkRenderPass ≠ none :=
  rpInv_run RenderPass.initial (by decide) ops h

/-- Witness for C1 on a concrete allowed run. -/
theorem startedImpliesHandleUnderDisciplineWitness :
    allowedRun RenderPass.initial
      [RPOp.createOp 37 126 0 (some 7), RPOp.beginOp, RPOp.endOp, RPOp.releaseOp] = true ∧
    ((RenderPass.run RenderPass.initial
        [RPOp.createOp 37 126 0 (some 7), RPOp.beginOp, RPOp.endOp, RPOp.releaseOp]).started = true →
      (RenderPass.run RenderPass.initial
        [RPOp.createOp 37 126 0 (some 7), RPOp.beginOp, RPOp.endOp, RPOp.releaseOp]).vkRenderPass ≠
        none) :=
  ⟨by decide, startedImpliesHandleUnderDiscipline _ (by decide)⟩

/-- Counterexample to C1 as stated: `Begin` on a freshly constructed
RenderPass (a reachable state of the operations Create/Begin/End/Release)
sets `started` while `nativeHandle` is still null, because
`RenderPass::Begin` sets `mStarted = true` unconditionally. -/
theorem beginFromFreshViolatesStartedHandleInvariant :
    (RenderPass.run RenderPass.initial [RPOp.beginOp]).started = true ∧
    (RenderPass.run RenderPass.initial [RPOp.beginOp]).vkRenderPass = none := by
  decide

theorem freeSources_spv (s : ShaderState) : (Shader.FreeSources s).spv = s.spv := by
  unfold Shader.FreeSources; split <;> rfl

theorem freeSources_module (s : ShaderState) :
    (Shader.FreeSources s).vkShaderModule = s.vkShaderModule := by
  unfold Shader.FreeSources; split <;> rfl

/-- C3 (amended): every call to `SetShaderSource`, with any arguments and
from any prior state, leaves `compiled` false; it does not modify
`binaryIR` (`mSpv`) or the native module handle, which keep their previous
values until the next compile / module creation. -/
theorem setShaderSourceResetsCompiledOnly (s : ShaderState) (count : Nat)
    (source : Option (List (List Nat))) (lens : Option (List Int)) :
    (Shader.SetShaderSource s count source lens).compiled = false ∧
    (Shader.SetShaderSource s count source lens).spv = s.spv ∧
    (Shader.SetShaderSource s count source lens).vkShaderModule = s.vkShaderModule := by
  unfold Shader.SetShaderSource
  cases source with
  | none => simp [freeSources_spv, freeSources_module]
  | some srcs =>
      by_cases h0 : count = 0
      · simp [h0, freeSources_spv, freeSources_module]
      · by_cases ht : (sourceLengthsOf count srcs lens).sum = 0 <;>
          simp [h0, ht, freeSources_spv, freeSources_module]

/-- Counterexample to C3 as stated: `SetShaderSource` on a shader holding
binary IR and a native module leaves both in place (only `compiled` and
the source buffer are reset). -/
theorem setShaderSourceKeepsSpvAndModule :
    (Shader.SetShaderSource
      { Shader.initial with spv := [1], vkShaderModule := some 5, compiled := true }
      1 (some [[65]]) none).spv ≠ [] ∧
    (Shader.SetShaderSource
      { Shader.initial with spv := [1], vkShaderModule := some 5, compiled := true }
      1 (some [[65]]) none).vkShaderModule ≠ none := by
  decide

theorem destroyVkShader_module (s : ShaderState) :
    (Shader.DestroyVkShader s).vkShaderModule = none := by
  unfold Shader.DestroyVkShader
  split
  · rfl
  · next h => simpa using h

theorem destroyVkShader_spv (s : ShaderState) :
    (Shader.DestroyVkShader s).spv = s.spv := by
  unfold Shader.DestroyVkShader; split <;> rfl

/-- C8: `CreateVkShaderModule` with stage `INVALID` trips the assertion
guard and never reaches native creation; with a valid stage and empty
binary IR it destroys any existing module and returns a null handle
without invoking `vkCreateShaderModule`. -/
theorem createVkShaderModuleGuards (s : ShaderState) (err : Int) (written : Option Nat) :
    (s.shaderType = ShaderType.invalid →
      Shader.CreateVkShaderModule s err written = ModuleResult.assertViolation) ∧
    (s.shaderType ≠ ShaderType.invalid → s.spv = [] →
      Shader.CreateVkShaderModule s err written =
        ModuleResult.ok (Shader.DestroyVkShader s) none false) ∧
    (Shader.DestroyVkShader s).vkShaderModule = none := by
  refine ⟨?_, ?_, destroyVkShader_module s⟩
  · intro h
    unfold Shader.CreateVkShaderModule
    rw [if_neg]
    simp [h]
  · intro h hspv
    have hc : s.shaderType = ShaderType.vertex ∨ s.shaderType = ShaderType.fragment := by
      cases hts : s.shaderType
      · exact absurd hts h
      · exact Or.inl rfl
      · exact Or.inr rfl
    unfold Shader.CreateVkShaderModule
    rw [if_pos hc, if_pos (by rw [destroyVkShader_spv, hspv]; rfl)]

/-- A vertex shader with an existing native module and empty binary IR. -/
def vertexShaderNoIR : ShaderState :=
  { Shader.initial with shaderType := ShaderType.vertex, vkShaderModule := some 9 }

/-- Witness for C8 at two concrete shaders. -/
theorem createVkShaderModuleGuardsWitness :
    Shader.CreateVkShaderModule Shader.initial 0 (some 3) = ModuleResult.assertViolation ∧
    Shader.CreateVkShaderModule vertexShaderNoIR 0 (some 3) =
      ModuleResult.ok { vertexShaderNoIR with vkShaderModule := none } none false :=
  ⟨(createVkShaderModuleGuards Shader.initial 0 (some 3)).1 rfl,
   ((createVkShaderModuleGuards vertexShaderNoIR 0 (some 3)).2.1 (by decide) rfl).trans
     (by decide)⟩

theorem range_map_getD {α β : Type} (srcs : List α) (d : α) (f : α → β) :
    (List.range srcs.length).map (fun i => f (srcs.getD i d)) = srcs.map f := by
  induction srcs with
  | nil => rfl
  | cons a tl ih =>
      rw [List.length_cons, List.range_succ_eq_map, List.map_cons, List.map_map]
      simp only [Function.comp_def, List.getD_cons_succ, List.getD_cons_zero]
      rw [ih, List.map_cons]

theorem range_map_getD_zip {α β γ : Type} (srcs : List α) (L : List β)
    (h : L.length = srcs.length) (d : α) (e : β) (g : α → β → γ) :
    (List.range srcs.length).map (fun i => g (srcs.getD i d) (L.getD i e)) =
      (srcs.zip L).map (fun p => g p.1 p.2) := by
  induction srcs generalizing L with
  | nil => rfl
  | cons a tl ih =>
      cases L with
      | nil => simp at h
      | cons b tlb =>
          rw [List.length_cons, List.range_succ_eq_map, List.map_cons, List.map_map]
          simp only [Function.comp_def, List.getD_cons_succ, List.getD_cons_zero]
          rw [List.zip_cons_cons, List.map_cons]
          congr 1
          exact ih tlb (by simpa using h)

theorem take_strlen (f : List Nat) : f.take (strlen f) = f.takeWhile (fun b => b != 0) := by
  induction f with
  | nil => rfl
  | cons a tl ih =>
      cases h : (a != 0) with
      | true =>
          simp only [strlen, List.takeWhile_cons, h, if_true, List.length_cons,
            List.take_succ_cons]
          rw [show (tl.takeWhile (fun b => b != 0)).length = strlen tl from rfl, ih]
      | false =>
          simp [strlen, List.takeWhile_cons, h]

theorem strlen_le (f : List Nat) : strlen f ≤ f.length := by
  induction f with
  | nil => exact Nat.le_refl 0
  | cons a tl ih =>
      cases h : (a != 0) with
      | true =>
          simp only [strlen, List.takeWhile_cons, h, if_true, List.length_cons]
          exact Nat.succ_le_succ ih
      | false =>
          simp [strlen, List.takeWhile_cons, h]

theorem fragLenAt_le (srcs : List (List Nat)) (lens : Option (List Int)) (i : Nat)
    (hbound : ∀ L, lens = some L → 0 ≤ L.getD i 0 →
        (L.getD i 0).toNat ≤ (srcs.getD i []).length) :
    fragLenAt srcs lens i ≤ (srcs.getD i []).length := by
  unfold fragLenAt
  cases lens with
  | none => exact strlen_le _
  | some L =>
      by_cases hneg : L.getD i 0 < 0
      · simp only [hneg, if_true]
        exact strlen_le _
      · simp only [hneg, if_false]
        exact hbound L rfl (by omega)

theorem pieces_eq_effFrags (srcs : List (List Nat)) (lens : Option (List Int))
    (hL : ∀ L, lens = some L → L.length = srcs.length) :
    (List.range srcs.length).map
        (fun i => (srcs.getD i []).take (fragLenAt srcs lens i)) =
      effFrags srcs lens := by
  cases lens with
  | none =>
      simp only [fragLenAt]
      rw [range_map_getD srcs [] (fun f => f.take (strlen f))]
      unfold effFrags
      exact List.map_congr_left (fun f _ => take_strlen f)
  | some L =>
      simp only [fragLenAt]
      have h1 := range_map_getD_zip srcs L (hL L rfl) [] 0
          (fun f n => f.take (if n < 0 then strlen f else n.toNat))
      rw [h1]
      unfold effFrags
      apply List.map_congr_left
      intro p _
      by_cases hneg : p.2 < 0
      · simp only [hneg, if_true]
        exact take_strlen p.1
      · simp only [hneg, if_false]

/-- C2 (amended): for every fragment count ≥ 1 and well-formed call
(`count` fragments supplied, a null length array or one entry per
fragment, explicit non-negative lengths within their fragment buffers),
provided the effective concatenation is nonempty, `GetShaderSource` after
`SetShaderSource` returns exactly the byte-wise concatenation of the
effective fragments in input order followed by one null terminator, and
`GetShaderSourceLength` returns the concatenated length plus 1.  (When
every effective fragment is empty the shader instead remains sourceless.) -/
theorem getShaderSourceAfterSetConcatenates (s : ShaderState) (count : Nat)
    (srcs : List (List Nat)) (lens : Option (List Int))
    (hcount : 1 ≤ count) (hlen : count = srcs.length)
    (hL : ∀ L, lens = some L → L.length = srcs.length)
    (hbound : ∀ L, lens = some L → ∀ i, i < srcs.length → 0 ≤ L.getD i 0 →
        (L.getD i 0).toNat ≤ (srcs.getD i []).length)
    (htot : (effFrags srcs lens).flatten ≠ []) :
    Shader.GetShaderSource (Shader.SetShaderSource s count (some srcs) lens) =
      some ((effFrags srcs lens).flatten ++ [0]) ∧
    Shader.GetShaderSourceLength (Shader.SetShaderSource s count (some srcs) lens) =
      (effFrags srcs lens).flatten.length + 1 := by
  subst hlen
  have hpieces := pieces_eq_effFrags srcs lens hL
  have hconcat : concatPieces srcs.length srcs lens = (effFrags srcs lens).flatten := by
    unfold concatPieces; rw [hpieces]
  have hlens : sourceLengthsOf srcs.length srcs lens = (effFrags srcs lens).map List.length := by
    unfold sourceLengthsOf
    rw [← hpieces, List.map_map]
    apply List.map_congr_left
    intro i hi
    simp only [Function.comp_apply, List.length_take]
    refine (Nat.min_eq_left ?_).symm
    exact fragLenAt_le srcs lens i (fun L hsome => hbound L hsome i (List.mem_range.mp hi))
  have hTot : (sourceLengthsOf srcs.length srcs lens).sum =
      (effFrags srcs lens).flatten.length := by
    rw [hlens, List.length_flatten]
  have hT0 : (sourceLengthsOf srcs.length srcs lens).sum ≠ 0 := by
    rw [hTot]
    exact fun h => htot (List.length_eq_zero.mp h)
  have hc0 : ¬(srcs.length = 0) := by omega
  have hset : Shader.SetShaderSource s srcs.length (some srcs) lens =
      { Shader.FreeSources s with
          compiled := false
          source := some (concatPieces srcs.length srcs lens ++ [0])
          sourceLength := (sourceLengthsOf srcs.length srcs lens).sum } := by
    simp only [Shader.SetShaderSource]
    rw [if_neg hc0, if_neg hT0]
  rw [hset]
  have hlenfield : Shader.GetShaderSourceLength
      { Shader.FreeSources s with
          compiled := false
          source := some (concatPieces srcs.length srcs lens ++ [0])
          sourceLength := (sourceLengthsOf srcs.length srcs lens).sum } =
      (effFrags srcs lens).flatten.length + 1 := by
    unfold Shader.GetShaderSourceLength
    rw [if_pos (Nat.pos_of_ne_zero hT0)]
    rw [hTot]
  refine ⟨?_, hlenfield⟩
  unfold Shader.GetShaderSource
  simp only [hlenfield]
  rw [hconcat]
  have hlen1 : (effFrags srcs lens).flatten.length + 1 =
      ((effFrags srcs lens).flatten ++ [0]).length := by
    simp
  rw [hlen1, List.take_length]

/-- Witness for C2 on a concrete one-fragment call. -/
theorem getShaderSourceAfterSetConcatenatesWitness :
    Shader.GetShaderSource (Shader.SetShaderSource Shader.initial 1 (some [[65]]) none) =
      some [65, 0] ∧
    Shader.GetShaderSourceLength
      (Shader.SetShaderSource Shader.initial 1 (some [[65]]) none) = 2 := by
  have h := getShaderSourceAfterSetConcatenates Shader.initial 1 [[65]] none
    (by decide) rfl (fun L hc => Option.noConfusion hc)
    (fun L hc => Option.noConfusion hc) (by decide)
  exact ⟨h.1.trans (by decide), h.2.trans (by decide)⟩

/-- Counterexample to C2 as stated: with fragment count 1 and one empty
null-terminated fragment the shader remains sourceless — `GetShaderSource`
returns null rather than a one-byte buffer holding the terminator, and
`GetShaderSourceLength` returns 0 rather than 1. -/
theorem emptyFragmentsLeaveShaderSourceless :
    Shader.GetShaderSource (Shader.SetShaderSource Shader.initial 1 (some [[]]) none) =
      none ∧
    Shader.GetShaderSource (Shader.SetShaderSource Shader.initial 1 (some [[]]) none) ≠
      some ((effFrags [[]] none).flatten ++ [0]) ∧
    Shader.GetShaderSourceLength
      (Shader.SetShaderSource Shader.initial 1 (some [[]]) none) = 0 := by
  decide

/-- The 13 bytes of the fragment text beginning a minimal GLSL main
function: v, o, i, d, space, m, a, i, n, open paren, close paren, space,
open brace. -/
def voidMainFrag : List Nat := [118, 111, 105, 100, 32, 109, 97, 105, 110, 40, 41, 32, 123]

/-- The single byte of the closing-brace fragment. -/
def closeBraceFrag : List Nat := [125]

/-- Counterexample to C7 as stated: the two fragments hold 13 + 1 = 14
bytes, so after `SetShaderSource` the stored length is 14, not 15, and
`GetShaderSourceLength()` returns 15, not 16. -/
theorem voidMainLengthIsFourteen :
    (Shader.SetShaderSource Shader.initial 2
        (some [voidMainFrag, closeBraceFrag]) none).sourceLength ≠ 15 ∧
    Shader.GetShaderSourceLength (Shader.SetShaderSource Shader.initial 2
        (some [voidMainFrag, closeBraceFrag]) none) ≠ 16 := by
  decide

/-- C7 (amended): for SetShaderSource with the two fragments of a minimal
GLSL main function and a null length array, the stored source is their
14-byte concatenation with one null terminator appended, the stored length
is 14, and `GetShaderSourceLength()` returns 15. -/
theorem voidMainScenarioLengths :
    (Shader.SetShaderSource Shader.initial 2
        (some [voidMainFrag, closeBraceFrag]) none).source =
      some (voidMainFrag ++ closeBraceFrag ++ [0]) ∧
    (Shader.SetShaderSource Shader.initial 2
        (some [voidMainFrag, closeBraceFrag]) none).sourceLength = 14 ∧
    Shader.GetShaderSourceLength (Shader.SetShaderSource Shader.initial 2
        (some [voidMainFrag, closeBraceFrag]) none) = 15 ∧
    Shader.GetShaderSource (Shader.SetShaderSource Shader.initial 2
        (some [voidMainFrag, closeBraceFrag]) none) =
      some (voidMainFrag ++ closeBraceFrag ++ [0]) := by
  decide
